import Mathlib

/-!
Shallow embedding of two Project Chrono connection types and the parts of
their solver-bridging protocol needed for verification:

* `ChShaftsPlanetary` (src/src/chrono/physics/ChShaftsPlanetary.h) — a
  planetary coupling between three one-degree-of-freedom shafts, enforcing
  r1*w1 + r2*w2 + r3*w3 = 0.  All member functions relevant here are inline
  in the header; scalar `double` state is modelled as `ℚ`.
* `ChLinkRevoluteTranslational` (the revolute-translational composite joint
  header) — a 4-constraint joint between two bodies.  Its geometric state is
  modelled over `ℝ` (Euclidean length needs a square root).

Method bodies that live in .cpp files absent from the excerpt (Update,
Initialize of the joint, ConstraintsBiLoad_C) are modelled from the spec;
each such definition carries a doc comment starting `Modelled from the
spec:`.
-/

namespace Chrono

/-- One-degree-of-freedom shaft holder: rotation angle and angular speed
(`ChShaft` exposes `GetPos` / `GetPosDt`). -/
structure ChShaft where
  pos : ℚ
  pos_dt : ℚ
  deriving DecidableEq

/-- State of `ChShaftsPlanetary` as declared in the header (private data
members at ChShaftsPlanetary.h lines 139-157, minus the solver-interface
constraint object and the shaft pointers, which are modelled as explicit
arguments where needed).  `ChTime` is the time cache inherited from
`ChPhysicsItem`. -/
structure ChShaftsPlanetary where
  active : Bool
  r1 : ℚ
  r2 : ℚ
  r3 : ℚ
  torque_react : ℚ
  avoid_phase_drift : Bool
  phase1 : ℚ
  phase2 : ℚ
  phase3 : ℚ
  ChTime : ℚ
  deriving DecidableEq

namespace ChShaftsPlanetary

/-- Header lines 79-83: set the transmission ratios directly. -/
def SetTransmissionRatios (p : ChShaftsPlanetary) (r_1 r_2 r_3 : ℚ) : ChShaftsPlanetary :=
  { p with r1 := r_1, r2 := r_2, r3 := r_3 }

/-- Header lines 100-104: derive the ratios from the ordinary (inverted
planetary) speed ratio t0.  The body is exactly `r1 = 1 - t0; r2 = t0;
r3 = -1` with no check and no error signal; the codomain is the plain
updated state. -/
def SetTransmissionRatioOrdinary (p : ChShaftsPlanetary) (t0 : ℚ) : ChShaftsPlanetary :=
  { p with r1 := 1 - t0, r2 := t0, r3 := -1 }

/-- Header line 108: `return -r2 / r3;`. -/
def GetTransmissionRatioOrdinary (p : ChShaftsPlanetary) : ℚ :=
  -p.r2 / p.r3

/-- Header line 111. -/
def GetTransmissionR1 (p : ChShaftsPlanetary) : ℚ := p.r1

/-- Header line 114. -/
def GetTransmissionR2 (p : ChShaftsPlanetary) : ℚ := p.r2

/-- Header line 117. -/
def GetTransmissionR3 (p : ChShaftsPlanetary) : ℚ := p.r3

/-- Header line 125: `return (r1 * torque_react);`. -/
def GetReaction1 (p : ChShaftsPlanetary) : ℚ := p.r1 * p.torque_react

/-- Header line 128: `return (r2 * torque_react);`. -/
def GetReaction2 (p : ChShaftsPlanetary) : ℚ := p.r2 * p.torque_react

/-- Header line 131: `return (r3 * torque_react);`. -/
def GetTorqueReactionOn3 (p : ChShaftsPlanetary) : ℚ := p.r3 * p.torque_react

/-- Header line 160: `return 3;` (three scalar velocity sub-blocks). -/
def GetNumAffectedCoords (_p : ChShaftsPlanetary) : ℕ := 3

/-- Header line 163: `return 1;` (one scalar constraint row). -/
def GetNumConstraintsBilateral (_p : ChShaftsPlanetary) : ℕ := 1

/-- Modelled from the spec: the body of `ChShaftsPlanetary::Update` is in a
.cpp file not present in the excerpt.  Per the spec, `Update(time)`
recomputes the connection's own cached quantities (the inherited time cache,
and the phase accumulators that track each shaft's absolute integrated
rotation when phase-drift avoidance is enabled) as a pure function of the
holders' current state, with no side effects on the holders; the three
shafts are therefore returned unmodified. -/
def Update (p : ChShaftsPlanetary) (s1 s2 s3 : ChShaft) (time : ℚ)
    (_update_assets : Bool) : ChShaftsPlanetary × ChShaft × ChShaft × ChShaft :=
  ({ p with
      ChTime := time
      phase1 := if p.avoid_phase_drift then s1.pos else p.phase1
      phase2 := if p.avoid_phase_drift then s2.pos else p.phase2
      phase3 := if p.avoid_phase_drift then s3.pos else p.phase3 },
   s1, s2, s3)

end ChShaftsPlanetary

/-- Modelled from the spec: the bodies of `ChShaftsPlanetary::ConstraintsBiLoad_C`
and `ChLinkRevoluteTranslational::ConstraintsBiLoad_C` are in .cpp files not
present in the excerpt.  Per the spec, the stabilization term loaded for a
constraint row is the violation scaled by `factor`, optionally clamped in
magnitude to `recovery_clamp` when `do_clamp` is set (the usual
`std::min(std::max(factor*C, -recovery_clamp), recovery_clamp)` form).
This function returns the value loaded for one row. -/
def ConstraintsBiLoad_C (violation factor recovery_clamp : ℚ) (do_clamp : Bool) : ℚ :=
  if do_clamp then min (max (factor * violation) (-recovery_clamp)) recovery_clamp
  else factor * violation

/-- A concrete planetary state used by closed counterexample theorems. -/
def p0 : ChShaftsPlanetary :=
  { active := true, r1 := 0, r2 := 0, r3 := 0, torque_react := 0,
    avoid_phase_drift := true, phase1 := 0, phase2 := 0, phase3 := 0, ChTime := 0 }

/-- Cartesian 3-vector with real components (model of `ChVector3d`). -/
structure Vec3 where
  x : ℝ
  y : ℝ
  z : ℝ

noncomputable instance : DecidableEq Vec3 := Classical.decEq _

/-- Componentwise sum. -/
def Vec3.add (a b : Vec3) : Vec3 := ⟨a.x + b.x, a.y + b.y, a.z + b.z⟩

/-- Componentwise difference. -/
def Vec3.sub (a b : Vec3) : Vec3 := ⟨a.x - b.x, a.y - b.y, a.z - b.z⟩

/-- Scalar multiple. -/
def Vec3.smul (c : ℝ) (v : Vec3) : Vec3 := ⟨c * v.x, c * v.y, c * v.z⟩

/-- Euclidean inner product (model of `Vdot`). -/
def Vec3.dot (a b : Vec3) : ℝ := a.x * b.x + a.y * b.y + a.z * b.z

/-- Euclidean length (model of `ChVector3d::Length`). -/
noncomputable def Vec3.length (v : Vec3) : ℝ := Real.sqrt (v.dot v)

/-- Euclidean distance between two points, written out directly (the
"direct computation" the spec's distance auto-derivation property refers
to). -/
noncomputable def euclidDist (u v : Vec3) : ℝ :=
  Real.sqrt ((v.x - u.x) ^ 2 + (v.y - u.y) ^ 2 + (v.z - u.z) ^ 2)

/-- Rigid-body holder (`ChBody`): an absolute position, a rotation given by
the absolute images of the three local axes (an orthonormal frame), and a
velocity state.  Only read accessors are exposed to connections. -/
structure ChBody where
  pos : Vec3
  rotX : Vec3
  rotY : Vec3
  rotZ : Vec3
  lin_vel : Vec3
  ang_vel : Vec3

/-- Rotate a local direction into the absolute (parent) frame. -/
def ChBody.TransformDirectionLocalToParent (b : ChBody) (d : Vec3) : Vec3 :=
  (Vec3.smul d.x b.rotX).add ((Vec3.smul d.y b.rotY).add (Vec3.smul d.z b.rotZ))

/-- Express a local point in the absolute (parent) frame. -/
def ChBody.TransformPointLocalToParent (b : ChBody) (p : Vec3) : Vec3 :=
  b.pos.add (b.TransformDirectionLocalToParent p)

/-- Rotate an absolute direction into the body-local frame (the rotation is
orthonormal, so the inverse action is projection on the frame axes). -/
def ChBody.TransformDirectionParentToLocal (b : ChBody) (d : Vec3) : Vec3 :=
  ⟨d.dot b.rotX, d.dot b.rotY, d.dot b.rotZ⟩

/-- Express an absolute point in the body-local frame. -/
def ChBody.TransformPointParentToLocal (b : ChBody) (p : Vec3) : Vec3 :=
  b.TransformDirectionParentToLocal (p.sub b.pos)

/-- State of `ChLinkRevoluteTranslational` as declared in its header
(private members at lines 126-147, minus the four solver-interface
constraint objects; the two body pointers are modelled as explicit
arguments where needed).  `m_C` holds the 4 cached constraint violations;
`m_multipliers` the 4 Lagrange multipliers, in the order
{par1, par2, dot, dist}.  `ChTime` is the inherited time cache. -/
structure ChLinkRevoluteTranslational where
  m_p1 : Vec3
  m_p2 : Vec3
  m_z1 : Vec3
  m_x2 : Vec3
  m_y2 : Vec3
  m_dist : ℝ
  m_cur_par1 : ℝ
  m_cur_par2 : ℝ
  m_cur_dot : ℝ
  m_cur_dist : ℝ
  m_C : Fin 4 → ℝ
  m_multipliers : Fin 4 → ℝ
  ChTime : ℝ

namespace ChLinkRevoluteTranslational

/-- Header line 39: `return 4;`. -/
def GetNumConstraintsBilateral (_j : ChLinkRevoluteTranslational) : ℕ := 4

/-- Header line 42: `return m_dist;`. -/
def GetImposedDistance (j : ChLinkRevoluteTranslational) : ℝ := j.m_dist

/-- Header line 45: `return m_cur_dist;`. -/
def GetCurrentDistance (j : ChLinkRevoluteTranslational) : ℝ := j.m_cur_dist

/-- Header line 81: `return m_C;` — a plain accessor on the cached
violation vector, declared const: it recomputes nothing and modifies no
state. -/
def GetConstraintViolation (j : ChLinkRevoluteTranslational) : Fin 4 → ℝ := j.m_C

end ChLinkRevoluteTranslational

/-- Arguments of the point/direction overload of
`ChLinkRevoluteTranslational::Initialize` (header lines 103-113).  `loc`
models the C++ parameter `local`; when true the geometric data are given in
the body-local frames, otherwise in the absolute frame. -/
structure RTInitArgs where
  loc : Bool
  p1 : Vec3
  dirZ1 : Vec3
  p2 : Vec3
  dirX2 : Vec3
  dirY2 : Vec3
  auto_distance : Bool
  distance : ℝ

/-- The first configured reference point resolved in the absolute frame at
initialization time. -/
def RTInitArgs.p1Abs (a : RTInitArgs) (body1 : ChBody) : Vec3 :=
  if a.loc then body1.TransformPointLocalToParent a.p1 else a.p1

/-- The second configured reference point resolved in the absolute frame at
initialization time. -/
def RTInitArgs.p2Abs (a : RTInitArgs) (body2 : ChBody) : Vec3 :=
  if a.loc then body2.TransformPointLocalToParent a.p2 else a.p2

/-- The revolute direction resolved in the absolute frame. -/
def RTInitArgs.z1Abs (a : RTInitArgs) (body1 : ChBody) : Vec3 :=
  if a.loc then body1.TransformDirectionLocalToParent a.dirZ1 else a.dirZ1

/-- The first translational direction resolved in the absolute frame. -/
def RTInitArgs.x2Abs (a : RTInitArgs) (body2 : ChBody) : Vec3 :=
  if a.loc then body2.TransformDirectionLocalToParent a.dirX2 else a.dirX2

/-- The second translational direction resolved in the absolute frame. -/
def RTInitArgs.y2Abs (a : RTInitArgs) (body2 : ChBody) : Vec3 :=
  if a.loc then body2.TransformDirectionLocalToParent a.dirY2 else a.dirY2

/-- Modelled from the spec: the body of the point/direction overload of
`ChLinkRevoluteTranslational::Initialize` is in a .cpp file not present in
the excerpt.  Per the spec (section 4.3), the given points and directions
are resolved according to the `local` flag and stored in the body-local
frames, and the imposed distance is either auto-derived from the current
configuration (`auto_distance = true`: the Euclidean distance between the
two configured points) or taken from the explicit `distance` argument.  The
declared signature (header line 103) returns void: the model is total and
returns the updated joint state, with no failure channel. -/
noncomputable def ChLinkRevoluteTranslational.Initialize (j : ChLinkRevoluteTranslational)
    (body1 body2 : ChBody) (a : RTInitArgs) : ChLinkRevoluteTranslational :=
  { j with
    m_p1 := if a.loc then a.p1 else body1.TransformPointParentToLocal a.p1
    m_p2 := if a.loc then a.p2 else body2.TransformPointParentToLocal a.p2
    m_z1 := if a.loc then a.dirZ1 else body1.TransformDirectionParentToLocal a.dirZ1
    m_x2 := if a.loc then a.dirX2 else body2.TransformDirectionParentToLocal a.dirX2
    m_y2 := if a.loc then a.dirY2 else body2.TransformDirectionParentToLocal a.dirY2
    m_cur_par1 := (a.z1Abs body1).dot (a.x2Abs body2)
    m_cur_par2 := (a.z1Abs body1).dot (a.y2Abs body2)
    m_cur_dot := ((a.p2Abs body2).sub (a.p1Abs body1)).dot (a.z1Abs body1)
    m_cur_dist := ((a.p2Abs body2).sub (a.p1Abs body1)).length
    m_dist := if a.auto_distance then ((a.p2Abs body2).sub (a.p1Abs body1)).length
              else a.distance }

/-- Follows the spec's words, for comparison with the declared code: the
spec says Initialize "returns a success flag" and must "reject
initialization if the two directions on body 2 are not distinct/orthogonal"
(degenerate translational plane); failure is modelled as `none`.  The
declaration in the header (line 103) instead returns void, so the code-true
model `Initialize` above has no failure channel to refine this. -/
noncomputable def InitializeWithSuccessFlag (j : ChLinkRevoluteTranslational)
    (body1 body2 : ChBody) (a : RTInitArgs) : Option ChLinkRevoluteTranslational :=
  if a.dirX2 = a.dirY2 then none else some (j.Initialize body1 body2 a)

/-- Modelled from the spec: the body of `ChLinkRevoluteTranslational::Update`
is in a .cpp file not present in the excerpt.  Per the spec, `Update(time)`
recomputes the joint's own cached quantities — the absolute-frame geometry
and the four constraint violations {par1, par2, dot, dist}, in the order of
the Lagrange multipliers (header lines 145-147) — as a pure function of the
holders' current state, with no side effects on the holders; the two bodies
are therefore returned unmodified. -/
noncomputable def ChLinkRevoluteTranslational.Update (j : ChLinkRevoluteTranslational)
    (body1 body2 : ChBody) (time : ℝ) (_update_assets : Bool) :
    ChLinkRevoluteTranslational × ChBody × ChBody :=
  let p1_abs := body1.TransformPointLocalToParent j.m_p1
  let p2_abs := body2.TransformPointLocalToParent j.m_p2
  let z1_abs := body1.TransformDirectionLocalToParent j.m_z1
  let x2_abs := body2.TransformDirectionLocalToParent j.m_x2
  let y2_abs := body2.TransformDirectionLocalToParent j.m_y2
  let d12 := p2_abs.sub p1_abs
  let cur_par1 := z1_abs.dot x2_abs
  let cur_par2 := z1_abs.dot y2_abs
  let cur_dot := d12.dot z1_abs
  let cur_dist := d12.length
  ({ j with
      ChTime := time
      m_cur_par1 := cur_par1
      m_cur_par2 := cur_par2
      m_cur_dot := cur_dot
      m_cur_dist := cur_dist
      m_C := ![cur_par1, cur_par2, cur_dot, cur_dist - j.m_dist] },
   body1, body2)

/-- The zero vector. -/
def vec0 : Vec3 := ⟨0, 0, 0⟩

/-- First unit basis vector. -/
def vecE1 : Vec3 := ⟨1, 0, 0⟩

/-- Second unit basis vector. -/
def vecE2 : Vec3 := ⟨0, 1, 0⟩

/-- Third unit basis vector. -/
def vecE3 : Vec3 := ⟨0, 0, 1⟩

/-- A body at the absolute origin with identity rotation and zero velocity. -/
def body0 : ChBody :=
  { pos := vec0, rotX := vecE1, rotY := vecE2, rotZ := vecE3,
    lin_vel := vec0, ang_vel := vec0 }

/-- A concrete default joint state (all caches zero). -/
def j_default : ChLinkRevoluteTranslational :=
  { m_p1 := vec0, m_p2 := vec0, m_z1 := vecE3, m_x2 := vecE1, m_y2 := vecE2,
    m_dist := 0, m_cur_par1 := 0, m_cur_par2 := 0, m_cur_dot := 0, m_cur_dist := 0,
    m_C := fun _ => 0, m_multipliers := fun _ => 0, ChTime := 0 }

/-- Degenerate initialization arguments: the two translational directions on
body 2 coincide (dirX2 = dirY2 = e1). -/
def degArgs : RTInitArgs :=
  { loc := true, p1 := vec0, dirZ1 := vecE3, p2 := vec0,
    dirX2 := vecE1, dirY2 := vecE1, auto_distance := false, distance := 0 }

/-- Well-formed initialization arguments with automatic distance
derivation (used by a witness). -/
def autoArgs : RTInitArgs :=
  { loc := false, p1 := vec0, dirZ1 := vecE3, p2 := vecE1,
    dirX2 := vecE1, dirY2 := vecE2, auto_distance := true, distance := 0 }

end Chrono

namespace Chrono

/-- C1: for the planetary coupling, in every state, the three reaction
accessors return exactly the corresponding transmission ratio times the
single cached multiplier `torque_react`, hence the reported reactions
satisfy the coupling's ratio relation (stated cross-multiplied) by
construction. -/
theorem C1_reaction_accessors (p : ChShaftsPlanetary) :
    p.GetReaction1 = p.r1 * p.torque_react ∧
    p.GetReaction2 = p.r2 * p.torque_react ∧
    p.GetTorqueReactionOn3 = p.r3 * p.torque_react ∧
    p.r2 * p.GetReaction1 = p.r1 * p.GetReaction2 ∧
    p.r3 * p.GetReaction2 = p.r2 * p.GetTorqueReactionOn3 := by
  refine ⟨rfl, rfl, rfl, ?_, ?_⟩ <;>
    simp [ChShaftsPlanetary.GetReaction1, ChShaftsPlanetary.GetReaction2,
      ChShaftsPlanetary.GetTorqueReactionOn3] <;> ring

/-- C3 counterexample: `SetTransmissionRatioOrdinary(1)` on a concrete state
completes silently, producing exactly the state that an ordinary, legal call
`SetTransmissionRatios(0, 1, -1)` produces; its codomain has no error
channel, so no execution signals an error, refuting the claim that t0 = 1
is never silently accepted. -/
theorem C3_counterexample :
    ChShaftsPlanetary.SetTransmissionRatioOrdinary p0 1 =
      ChShaftsPlanetary.SetTransmissionRatios p0 0 1 (-1) ∧
    (ChShaftsPlanetary.SetTransmissionRatioOrdinary p0 1).r1 = 0 ∧
    (ChShaftsPlanetary.SetTransmissionRatioOrdinary p0 1).r2 = 1 ∧
    (ChShaftsPlanetary.SetTransmissionRatioOrdinary p0 1).r3 = -1 := by
  refine ⟨?_, ?_, ?_, ?_⟩ <;>
    simp [ChShaftsPlanetary.SetTransmissionRatioOrdinary,
      ChShaftsPlanetary.SetTransmissionRatios]

/-- C3 amended: `SetTransmissionRatioOrdinary(1)` is silently accepted in
every state: it completes, setting r1 = 0, r2 = 1, r3 = -1 — the same state
a direct `SetTransmissionRatios(0, 1, -1)` call yields; the singularity
t0 = 1 is only warned about in the function's documentation, never rejected
or flagged at run time. -/
theorem C3_amended_silent_accept (p : ChShaftsPlanetary) :
    ChShaftsPlanetary.SetTransmissionRatioOrdinary p 1 =
      ChShaftsPlanetary.SetTransmissionRatios p 0 1 (-1) := by
  simp [ChShaftsPlanetary.SetTransmissionRatioOrdinary, ChShaftsPlanetary.SetTransmissionRatios]

/-- C6: for every t0, `SetTransmissionRatioOrdinary(t0)` sets the three
transmission ratios to exactly r1 = 1 - t0, r2 = t0, r3 = -1, as observable
through the three getters. -/
theorem C6_ordinary_sets_ratios (p : ChShaftsPlanetary) (t0 : ℚ) :
    (p.SetTransmissionRatioOrdinary t0).GetTransmissionR1 = 1 - t0 ∧
    (p.SetTransmissionRatioOrdinary t0).GetTransmissionR2 = t0 ∧
    (p.SetTransmissionRatioOrdinary t0).GetTransmissionR3 = -1 := by
  exact ⟨rfl, rfl, rfl⟩

/-- C9: round-trip of the ordinary transmission ratio — for every t0 with
t0 ≠ 1 (the spec's non-singularity precondition), setting the ratios from t0
and reading them back through `GetTransmissionRatioOrdinary` returns exactly
t0, because the getter computes -r2/r3 = -t0/(-1). -/
theorem C9_ordinary_round_trip (p : ChShaftsPlanetary) (t0 : ℚ) (_h : t0 ≠ 1) :
    (p.SetTransmissionRatioOrdinary t0).GetTransmissionRatioOrdinary = t0 := by
  simp [ChShaftsPlanetary.SetTransmissionRatioOrdinary,
    ChShaftsPlanetary.GetTransmissionRatioOrdinary]

/-- Witness for C9 at the concrete input t0 = 2. -/
theorem C9_ordinary_round_trip_witness :
    (ChShaftsPlanetary.SetTransmissionRatioOrdinary p0 2).GetTransmissionRatioOrdinary = 2 :=
  C9_ordinary_round_trip p0 2 (by decide)

/-- C5: in every state, the planetary coupling reports exactly 1 bilateral
constraint spanning 3 affected scalar coordinates, and the composite
revolute-translational joint reports exactly 4 bilateral constraints. -/
theorem C5_constraint_counts :
    (∀ p : ChShaftsPlanetary,
        p.GetNumConstraintsBilateral = 1 ∧ p.GetNumAffectedCoords = 3) ∧
    (∀ j : ChLinkRevoluteTranslational, j.GetNumConstraintsBilateral = 4) :=
  ⟨fun _ => ⟨rfl, rfl⟩, fun _ => rfl⟩

/-- C4: for every violation value C, `ConstraintsBiLoad_C` loads the
violation scaled by `factor`, unclamped when `do_clamp` is false, and
clamped in magnitude to `recovery_clamp` when `do_clamp` is true (the value
is unchanged whenever it already lies within the clamp bound); in
particular, with factor = 1, do_clamp = true and recovery_clamp = 1/10, a
violation of 10 loads exactly 1/10 and a violation of 1/20 loads exactly
1/20. -/
theorem C4_biload_clamping (C fac rc : ℚ) (h : 0 ≤ rc) :
    ConstraintsBiLoad_C C fac rc false = fac * C ∧
    |ConstraintsBiLoad_C C fac rc true| ≤ rc ∧
    (|fac * C| ≤ rc → ConstraintsBiLoad_C C fac rc true = fac * C) ∧
    ConstraintsBiLoad_C 10 1 (1/10) true = 1/10 ∧
    ConstraintsBiLoad_C (1/20) 1 (1/10) true = 1/20 := by
  refine ⟨rfl, ?_, ?_, ?_, ?_⟩
  · simp only [ConstraintsBiLoad_C, if_true]
    refine abs_le.mpr ⟨le_min (le_max_right _ _) (neg_nonpos_of_nonneg h |>.trans h), ?_⟩
    exact min_le_right _ _
  · intro hb
    obtain ⟨hl, hr⟩ := abs_le.mp hb
    simp only [ConstraintsBiLoad_C, if_true]
    rw [max_eq_left hl, min_eq_left hr]
  · norm_num [ConstraintsBiLoad_C, min_def, max_def]
  · norm_num [ConstraintsBiLoad_C, min_def, max_def]

/-- Witness for C4 at recovery_clamp = 1/10. -/
theorem C4_biload_clamping_witness :
    ConstraintsBiLoad_C 3 2 (1/10) false = 2 * 3 ∧
    |ConstraintsBiLoad_C 3 2 (1/10) true| ≤ 1/10 ∧
    (|(2 : ℚ) * 3| ≤ 1/10 → ConstraintsBiLoad_C 3 2 (1/10) true = 2 * 3) ∧
    ConstraintsBiLoad_C 10 1 (1/10) true = 1/10 ∧
    ConstraintsBiLoad_C (1/20) 1 (1/10) true = 1/20 :=
  C4_biload_clamping 3 2 (1/10) (by norm_num)

/-- C7: for both connection types, `Update(time, ...)` leaves every attached
holder unchanged — the shafts and the bodies come back exactly as passed in;
only the connection's own cached quantities are recomputed. -/
theorem C7_update_no_holder_mutation :
    (∀ (p : ChShaftsPlanetary) (s1 s2 s3 : ChShaft) (t : ℚ) (ua : Bool),
        (p.Update s1 s2 s3 t ua).2 = (s1, s2, s3)) ∧
    (∀ (j : ChLinkRevoluteTranslational) (b1 b2 : ChBody) (t : ℝ) (ua : Bool),
        (j.Update b1 b2 t ua).2 = (b1, b2)) :=
  ⟨fun _ _ _ _ _ _ => rfl, fun _ _ _ _ _ => rfl⟩

/-- C8: when `Initialize` is called with auto_distance = true, the imposed
distance returned afterwards by `GetImposedDistance()` equals exactly the
Euclidean distance between the two configured reference points resolved in
the configuration current at initialization time. -/
theorem C8_auto_distance (j : ChLinkRevoluteTranslational) (b1 b2 : ChBody)
    (a : RTInitArgs) (h : a.auto_distance = true) :
    (j.Initialize b1 b2 a).GetImposedDistance = euclidDist (a.p1Abs b1) (a.p2Abs b2) := by
  simp only [ChLinkRevoluteTranslational.Initialize,
    ChLinkRevoluteTranslational.GetImposedDistance, h, if_true]
  simp only [euclidDist, Vec3.length, Vec3.dot, Vec3.sub]
  congr 1
  ring

/-- Witness for C8 at a concrete initialization (identity bodies, points at
the origin and at e1, auto_distance = true). -/
theorem C8_auto_distance_witness :
    (j_default.Initialize body0 body0 autoArgs).GetImposedDistance =
      euclidDist (autoArgs.p1Abs body0) (autoArgs.p2Abs body0) :=
  C8_auto_distance j_default body0 body0 autoArgs rfl

/-- C2 counterexample: the spec-following variant (success flag, rejection
of a degenerate plane) fails on dirX2 = dirY2, but the joint's `Initialize`
as declared in the header returns void — the code-true model completes on
the same degenerate input, storing the two coincident directions and the
explicit distance exactly as on any other input.  The claimed boolean
failure surface does not exist. -/
theorem C2_counterexample :
    InitializeWithSuccessFlag j_default body0 body0 degArgs = none ∧
    (j_default.Initialize body0 body0 degArgs).m_x2 = vecE1 ∧
    (j_default.Initialize body0 body0 degArgs).m_y2 = vecE1 ∧
    (j_default.Initialize body0 body0 degArgs).m_dist = 0 := by
  refine ⟨?_, rfl, rfl, rfl⟩
  unfold InitializeWithSuccessFlag
  exact if_pos rfl

/-- C2 amended: `Initialize` is declared void and returns no success flag;
called with dirX2 = dirY2 it completes without any error signal, storing
the two (equal) translational directions — the degenerate plane is accepted
rather than rejected at initialization time. -/
theorem C2_amended_degenerate_accepted (j : ChLinkRevoluteTranslational)
    (b1 b2 : ChBody) (a : RTInitArgs) (h : a.dirX2 = a.dirY2) :
    (j.Initialize b1 b2 a).m_x2 = (j.Initialize b1 b2 a).m_y2 := by
  simp [ChLinkRevoluteTranslational.Initialize, h]

/-- Witness for the amended C2 at the concrete degenerate input. -/
theorem C2_amended_degenerate_accepted_witness :
    (j_default.Initialize body0 body0 degArgs).m_x2 =
      (j_default.Initialize body0 body0 degArgs).m_y2 :=
  C2_amended_degenerate_accepted j_default body0 body0 degArgs rfl

/-- C10: `GetConstraintViolation()` returns the internally cached
4-component violation vector `m_C` unchanged, for every joint state (it is
a const accessor: no recomputation, no state modification), and after any
`Update` the four components are, in order, the violations
{par1, par2, dot, dist} — matching the declared order of the Lagrange
multipliers. -/
theorem C10_violation_accessor :
    (∀ j : ChLinkRevoluteTranslational, j.GetConstraintViolation = j.m_C) ∧
    (∀ (j : ChLinkRevoluteTranslational) (b1 b2 : ChBody) (t : ℝ) (ua : Bool),
        ((j.Update b1 b2 t ua).1).GetConstraintViolation =
          ![((j.Update b1 b2 t ua).1).m_cur_par1,
            ((j.Update b1 b2 t ua).1).m_cur_par2,
            ((j.Update b1 b2 t ua).1).m_cur_dot,
            ((j.Update b1 b2 t ua).1).m_cur_dist - ((j.Update b1 b2 t ua).1).m_dist]) :=
  ⟨fun _ => rfl, fun _ _ _ _ _ => rfl⟩

end Chrono
